import Mathlib

/-!
Shallow embedding of the scoring API of this repository
(src/scoring_api/api.py and src/scoring_api/scoring.py) and proofs about it.

Python values are modelled by an inductive `PyVal`; exceptions by `Except PyErr`;
floats by `ℚ` (every score in the code is an exact binary fraction); `date.today()`
and the hash functions (`hashlib.sha512`, `hashlib.md5`) are passed as parameters.

One Python subtlety is modelled explicitly because the code depends on it:
attribute access on a request object whose instance attribute was never set falls
back to the *class* attribute, which is the `Field` descriptor object
(`CharField`, `PhoneField`, ...) and not `None`.  `PyVal.field required nullable`
represents such a `Field` instance; `str()` of it is
"Field(required=..., nullable=...)" (its `__str__`), and it is truthy.
-/

namespace ScoringApi

/-- Calendar date, modelling Python `datetime.date`. -/
structure PyDate where
  year : Nat
  month : Nat
  day : Nat
deriving DecidableEq

/-- Gregorian leap year rule (as used by Python `datetime` / `calendar`). -/
def isLeap (y : Nat) : Bool :=
  y % 4 == 0 && (y % 100 != 0 || y % 400 == 0)

/-- Number of days in a month (Python `calendar.monthrange(y, m)[1]`). -/
def daysInMonth (y m : Nat) : Nat :=
  if m == 2 then (if isLeap y then 29 else 28)
  else if m == 4 || m == 6 || m == 9 || m == 11 then 30
  else 31

/-- Python `date.__le__`: lexicographic on (year, month, day). -/
def dateLe (a b : PyDate) : Bool :=
  decide (a.year < b.year ∨ (a.year = b.year ∧
    (a.month < b.month ∨ (a.month = b.month ∧ a.day ≤ b.day))))

/-- Python `date.__lt__`: strict lexicographic on (year, month, day). -/
def dateLt (a b : PyDate) : Bool :=
  decide (a.year < b.year ∨ (a.year = b.year ∧
    (a.month < b.month ∨ (a.month = b.month ∧ a.day < b.day))))

/-- `d - relativedelta(years=n)`: subtract from the year and cap the day at the
last day of the resulting month (dateutil caps with `monthrange`). -/
def subYears (d : PyDate) (n : Nat) : PyDate :=
  let y := d.year - n
  ⟨y, d.month, min d.day (daysInMonth y d.month)⟩

/-- Zero-pad a numeral to the given width (for `strftime`). -/
def padNum (width n : Nat) : String :=
  let s := toString n
  let l := s.length
  String.mk (List.replicate (width - l) (Char.ofNat 48)) ++ s

/-- `strftime("%Y%m%d")`. -/
def fmtYmd (d : PyDate) : String :=
  padNum 4 d.year ++ padNum 2 d.month ++ padNum 2 d.day

/-- `str(datetime)` for a midnight datetime parsed by `strptime`. -/
def fmtDateTime (d : PyDate) : String :=
  padNum 4 d.year ++ "-" ++ padNum 2 d.month ++ "-" ++ padNum 2 d.day ++ " 00:00:00"

/-- Python `str.split(sep)` for a one-character separator, on the character
list (structurally recursive so that proofs can evaluate it). -/
def splitOnChar (sep : Char) : List Char → List (List Char)
  | [] => [[]]
  | a :: rest =>
    let r := splitOnChar sep rest
    if a == sep then [] :: r
    else
      match r with
      | [] => [[a]]
      | g :: gs => (a :: g) :: gs

/-- Python `str.split(sep)` for a one-character separator. -/
def pySplit (s : String) (sep : Char) : List String :=
  (splitOnChar sep s.data).map String.mk

/-- Digit characters to their numeral value (helper for parsing). -/
def digitsToNat : List Char → Nat → Nat
  | [], acc => acc
  | c :: rest, acc => digitsToNat rest (acc * 10 + (c.toNat - 48))

/-- Parse a non-empty all-digit string as a Nat (as `int(...)` does inside
`strptime` after its regular expression matched digits). -/
def parseDigits (s : String) : Option Nat :=
  if !s.data.isEmpty && s.data.all Char.isDigit then some (digitsToNat s.data 0)
  else Option.none

/-- `datetime.strptime(value, "%d.%m.%Y")`: day and month of one or two digits,
a four-digit year, and a calendar-valid date.  Returns `none` where strptime
raises `ValueError`. -/
def parseDate (s : String) : Option PyDate :=
  match pySplit s (Char.ofNat 0x2e) with
  | [ds, ms, ys] =>
    match parseDigits ds, parseDigits ms, parseDigits ys with
    | some d, some m, some y =>
      if ds.length ≤ 2 && ms.length ≤ 2 && ys.length == 4 &&
         1 ≤ d && 1 ≤ m && m ≤ 12 && d ≤ daysInMonth y m then
        some ⟨y, m, d⟩
      else Option.none
    | _, _, _ => Option.none
  | _ => Option.none

/-- Python exceptions that the embedded code can raise. -/
inductive PyErr where
  | typeError
  | attributeError
  | connectionError
  | redisError
deriving DecidableEq

/-- The Python values that flow through the scoring API. -/
inductive PyVal where
  | none
  | str (s : String)
  | int (n : Int)
  | bool (b : Bool)
  | list (l : List PyVal)
  | dict (l : List (String × PyVal))
  | field (required nullable : Bool)
  | datetime (d : PyDate)

/-- `str(b)` for a Python bool. -/
def pyBoolStr (b : Bool) : String := if b then "True" else "False"

/-- Python `str(value)`.  Container reprs are not modelled precisely (no
validated field value is a container when `str` is applied to it). -/
def pyStr : PyVal → String
  | .none => "None"
  | .str s => s
  | .int n => toString n
  | .bool b => pyBoolStr b
  | .list _ => "[...]"
  | .dict _ => "\x7b...\x7d"
  | .field r n => "Field(required=" ++ pyBoolStr r ++ ", nullable=" ++ pyBoolStr n ++ ")"
  | .datetime d => fmtDateTime d

/-- Python truthiness.  A `Field` instance defines no `__bool__`/`__len__`,
so it is truthy. -/
def pyTruthy : PyVal → Bool
  | .none => false
  | .str s => !(s == "")
  | .int n => !(n == 0)
  | .bool b => b
  | .list l => !l.isEmpty
  | .dict l => !l.isEmpty
  | .field _ _ => true
  | .datetime _ => true

/-- `value is None`. -/
def pyIsNone : PyVal → Bool
  | .none => true
  | _ => false

/-- Python `+` as used in `check_auth` (string concatenation).  Adding a
non-string (in particular a `Field` class attribute) raises `TypeError`. -/
def pyAdd : PyVal → PyVal → Except PyErr String
  | .str a, .str b => .ok (a ++ b)
  | _, _ => .error PyErr.typeError

/-- `value == "literal"` for a Python value (also `"literal" == value`):
equal only when the value is that string. -/
def pyEqStr (v : PyVal) (s : String) : Bool :=
  match v with
  | .str t => t == s
  | _ => false

/-- `isinstance(value, int)` — Python bools are ints. -/
def pyIsInt : PyVal → Bool
  | .int _ => true
  | .bool _ => true
  | _ => false

/-! ### Field validators (api.py lines 45-139).
Each returns `Except String Unit`; `.error msg` models `raise ValidationError(msg)`.
The message texts are abridged (quotes dropped); no claim depends on them. -/

/-- `CharField.validate`. -/
def charFieldValidate : PyVal → Except String Unit
  | .str _ => .ok ()
  | _ => .error "Value should be a string"

/-- `ArgumentsField.validate`. -/
def argumentsFieldValidate : PyVal → Except String Unit
  | .dict _ => .ok ()
  | _ => .error "Value must be a dictionary (JSON object)"

/-- `EmailField.validate`: a string that splits on "@" into exactly two
non-empty parts. -/
def emailFieldValidate : PyVal → Except String Unit
  | .str s =>
    match pySplit s (Char.ofNat 0x40) with
    | [a, b] =>
      if a == "" || b == "" then .error "Email must be localpart at domainpart"
      else .ok ()
    | _ => .error "Email must be localpart at domainpart"
  | _ => .error "Value should be a string"

/-- `str.startswith("7")`: the first character is the digit 7. -/
def startsWithSeven (s : String) : Bool :=
  match s.data with
  | c :: _ => c == Char.ofNat 0x37
  | [] => false

/-- The two checks on `str(value)` in `PhoneField.validate`. -/
def phoneStrCheck (s : String) : Except String Unit :=
  if !(s.length == 11) then .error "Phone must be contain exactly 11 digits"
  else if !(startsWithSeven s) then .error "Phone number must start with digit 7"
  else .ok ()

/-- `PhoneField.validate`: accepts `str` or `int` (Python bools are ints;
their `str()` never has 11 characters). -/
def phoneFieldValidate : PyVal → Except String Unit
  | .str s => phoneStrCheck s
  | .int n => phoneStrCheck (toString n)
  | .bool b => phoneStrCheck (pyBoolStr b)
  | _ => .error "Phone must be a string or an integer"

/-- `DateField.validate`. -/
def dateFieldValidate : PyVal → Except String Unit
  | .str s =>
    match parseDate s with
    | some _ => .ok ()
    | Option.none => .error "Date must be in the format dd.mm.yyyy"
  | _ => .error "Date must be a string"

/-- `BirthDayField.validate`: a parseable date that is strictly after
`today - relativedelta(years=70)`. -/
def birthDayFieldValidate (today : PyDate) : PyVal → Except String Unit
  | .str s =>
    match parseDate s with
    | some d =>
      if dateLe d (subYears today 70) then
        .error "Age must be less than 70 years"
      else .ok ()
    | Option.none => .error "Date must be in the format dd.mm.yyyy"
  | _ => .error "Date must be a string"

/-- `GenderField.validate`: `value in GENDERS` with keys 0, 1, 2.  Python
bools compare equal to 0/1, so they are members. -/
def genderFieldValidate : PyVal → Except String Unit
  | .int n =>
    if n == 0 || n == 1 || n == 2 then .ok ()
    else .error "Gender must be one of 0, 1, or 2"
  | .bool _ => .ok ()
  | _ => .error "Gender must be one of 0, 1, or 2"

/-- `ClientIDsField.validate`: a non-empty list of ints. -/
def clientIDsFieldValidate : PyVal → Except String Unit
  | .list l =>
    if l.isEmpty then .error "Client IDs list cannot be empty"
    else if l.all pyIsInt then .ok ()
    else .error "All elements in Client IDs list must be integers"
  | _ => .error "Client IDs must be a list"

/-! ### Request construction (api.py `BaseRequest.__init__`, lines 142-201).
For each declared field: absent and required → error; present as `null` and not
nullable → error; present non-null → run the validator, and on success set the
instance attribute.  `post_validate` runs only when no field error occurred. -/

/-- A field declaration: name, `required`, `nullable`, and its validator. -/
structure FieldSpec where
  name : String
  required : Bool
  nullable : Bool
  validate : PyVal → Except String Unit

def accountFS : FieldSpec := ⟨"account", false, true, charFieldValidate⟩
def loginFS : FieldSpec := ⟨"login", true, true, charFieldValidate⟩
def tokenFS : FieldSpec := ⟨"token", true, true, charFieldValidate⟩
def argumentsFS : FieldSpec := ⟨"arguments", true, true, argumentsFieldValidate⟩
def methodFS : FieldSpec := ⟨"method", true, false, charFieldValidate⟩
def firstNameFS : FieldSpec := ⟨"first_name", false, true, charFieldValidate⟩
def lastNameFS : FieldSpec := ⟨"last_name", false, true, charFieldValidate⟩
def emailFS : FieldSpec := ⟨"email", false, true, emailFieldValidate⟩
def phoneFS : FieldSpec := ⟨"phone", false, true, phoneFieldValidate⟩
def birthdayFS (today : PyDate) : FieldSpec := ⟨"birthday", false, true, birthDayFieldValidate today⟩
def genderFS : FieldSpec := ⟨"gender", false, true, genderFieldValidate⟩
def clientIdsFS : FieldSpec := ⟨"client_ids", true, false, clientIDsFieldValidate⟩
def dateFS : FieldSpec := ⟨"date", false, true, dateFieldValidate⟩

/-- The entry the `__init__` loop appends to `self.errors` for one field
(`none` when the field contributes no error). -/
def fieldError (data : List (String × PyVal)) (f : FieldSpec) : Option (String × String) :=
  match data.lookup f.name with
  | Option.none =>
    if f.required then some (f.name, "This field is requeired") else Option.none
  | some v =>
    if pyIsNone v then
      if f.nullable then Option.none else some (f.name, "This field cannot be null")
    else
      match f.validate v with
      | .ok _ => Option.none
      | .error e => some (f.name, e)

/-- The instance attribute the `__init__` loop sets for one field
(`none` when `setattr` is not reached: absent, null, or validation failed). -/
def fieldAttrVal (data : List (String × PyVal)) (f : FieldSpec) : Option PyVal :=
  match data.lookup f.name with
  | Option.none => Option.none
  | some v =>
    if pyIsNone v then Option.none
    else
      match f.validate v with
      | .ok _ => some v
      | .error _ => Option.none

/-- A validated `MethodRequest`: its error dict and its instance attributes. -/
structure MethodReqState where
  errors : List (String × String)
  account : Option PyVal
  login : Option PyVal
  token : Option PyVal
  arguments : Option PyVal
  method : Option PyVal

/-- `MethodRequest(data)` on a dict (field order is declaration order;
`post_validate` is the base no-op). -/
def methodRequestState (data : List (String × PyVal)) : MethodReqState :=
  { errors := [accountFS, loginFS, tokenFS, argumentsFS, methodFS].filterMap (fieldError data)
    account := fieldAttrVal data accountFS
    login := fieldAttrVal data loginFS
    token := fieldAttrVal data tokenFS
    arguments := fieldAttrVal data argumentsFS
    method := fieldAttrVal data methodFS }

/-- `MethodRequest(body)`: on a non-dict, `data.get(...)` raises
`AttributeError` (only dicts have `.get`). -/
def methodRequestInit (body : PyVal) : Except PyErr MethodReqState :=
  match body with
  | .dict data => .ok (methodRequestState data)
  | _ => .error PyErr.attributeError

/-- A validated `OnlineScoreRequest`. -/
structure OnlineScoreState where
  errors : List (String × String)
  first_name : Option PyVal
  last_name : Option PyVal
  email : Option PyVal
  phone : Option PyVal
  birthday : Option PyVal
  gender : Option PyVal

/-- `OnlineScoreRequest.post_validate` (api.py lines 217-232): at least one of
the pairs (phone, email), (first_name, last_name), (gender, birthday) must have
both instance attributes set. -/
def onlineScorePost (st : OnlineScoreState) : OnlineScoreState :=
  if st.phone.isSome && st.email.isSome
     || st.first_name.isSome && st.last_name.isSome
     || st.gender.isSome && st.birthday.isSome then st
  else
    { st with errors := st.errors ++
        [("arguments", "At least one pair is required: (phone, email), (first_name, last_name), or (birthday, gender).")] }

/-- `OnlineScoreRequest(data)` on a dict. -/
def onlineScoreState (today : PyDate) (data : List (String × PyVal)) : OnlineScoreState :=
  let st : OnlineScoreState :=
    { errors := [firstNameFS, lastNameFS, emailFS, phoneFS, birthdayFS today, genderFS].filterMap (fieldError data)
      first_name := fieldAttrVal data firstNameFS
      last_name := fieldAttrVal data lastNameFS
      email := fieldAttrVal data emailFS
      phone := fieldAttrVal data phoneFS
      birthday := fieldAttrVal data (birthdayFS today)
      gender := fieldAttrVal data genderFS }
  if st.errors.isEmpty then onlineScorePost st else st

/-- `OnlineScoreRequest(body)` on an arbitrary value. -/
def onlineScoreInit (today : PyDate) (body : PyVal) : Except PyErr OnlineScoreState :=
  match body with
  | .dict data => .ok (onlineScoreState today data)
  | _ => .error PyErr.attributeError

/-- A validated `ClientsInterestsRequest`. -/
structure ClientsInterestsState where
  errors : List (String × String)
  client_ids : Option PyVal
  date : Option PyVal

/-- `ClientsInterestsRequest(data)` on a dict (`post_validate` is the no-op). -/
def clientsInterestsState (data : List (String × PyVal)) : ClientsInterestsState :=
  { errors := [clientIdsFS, dateFS].filterMap (fieldError data)
    client_ids := fieldAttrVal data clientIdsFS
    date := fieldAttrVal data dateFS }

/-- `ClientsInterestsRequest(body)` on an arbitrary value. -/
def clientsInterestsInit (body : PyVal) : Except PyErr ClientsInterestsState :=
  match body with
  | .dict data => .ok (clientsInterestsState data)
  | _ => .error PyErr.attributeError

/-! ### Attribute access with class-attribute fallback.
`getattr(req, "login", None)` (and plain `req.login`) returns the instance
attribute when set, and otherwise the `Field` object stored on the class. -/

/-- `req.account` / `getattr(req, "account", None)`:
class attribute `CharField(required=False, nullable=True)`. -/
def mrAccount (st : MethodReqState) : PyVal := st.account.getD (PyVal.field false true)

/-- `req.login`: class attribute `CharField(required=True, nullable=True)`. -/
def mrLogin (st : MethodReqState) : PyVal := st.login.getD (PyVal.field true true)

/-- `req.token`: class attribute `CharField(required=True, nullable=True)`. -/
def mrToken (st : MethodReqState) : PyVal := st.token.getD (PyVal.field true true)

/-- `req.arguments`: class attribute `ArgumentsField(required=True, nullable=True)`. -/
def mrArguments (st : MethodReqState) : PyVal := st.arguments.getD (PyVal.field true true)

/-- `req.method`: class attribute `CharField(required=True, nullable=False)`. -/
def mrMethod (st : MethodReqState) : PyVal := st.method.getD (PyVal.field true false)

/-- `MethodRequest.is_admin`: `self.login == ADMIN_LOGIN`. -/
def mrIsAdmin (st : MethodReqState) : Bool := pyEqStr (mrLogin st) "admin"

/-- `getattr(score_req, name, None)` for the six score fields: each class
attribute is a field with `required=False, nullable=True`. -/
def osAttr (o : Option PyVal) : PyVal := o.getD (PyVal.field false true)

/-- The condition of `get_non_empty_fields`:
`value is not None and value != "" and value != []`. -/
def attrNonEmpty : PyVal → Bool
  | .none => false
  | .str s => !(s == "")
  | .list l => !l.isEmpty
  | _ => true

/-- `OnlineScoreRequest.get_non_empty_fields()`: names of instance attributes
that are set and non-empty, in field declaration order. -/
def osNonEmptyFields (st : OnlineScoreState) : List String :=
  (match st.first_name with | some v => if attrNonEmpty v then ["first_name"] else [] | Option.none => []) ++
  (match st.last_name with | some v => if attrNonEmpty v then ["last_name"] else [] | Option.none => []) ++
  (match st.email with | some v => if attrNonEmpty v then ["email"] else [] | Option.none => []) ++
  (match st.phone with | some v => if attrNonEmpty v then ["phone"] else [] | Option.none => []) ++
  (match st.birthday with | some v => if attrNonEmpty v then ["birthday"] else [] | Option.none => []) ++
  (match st.gender with | some v => if attrNonEmpty v then ["gender"] else [] | Option.none => [])

/-- `check_auth` (api.py lines 247-264).  `sha512hex` is `hashlib.sha512(...).hexdigest()`
on the utf-8 bytes of its argument; `nowYmdH` is `datetime.now().strftime("%Y%m%d%H")`.
SALT = "Otus", ADMIN_SALT = "42".  Raises `TypeError` when the string
concatenation hits a `Field` class attribute (login or account unset). -/
def checkAuth (sha512hex : String → String) (nowYmdH : String)
    (st : MethodReqState) : Except PyErr Bool :=
  let login := mrLogin st
  let account := mrAccount st
  let token := mrToken st
  if pyIsNone login || pyIsNone token then .ok false
  else if mrIsAdmin st then
    .ok (pyEqStr token (sha512hex (nowYmdH ++ "42")))
  else do
    let accountStr := if pyIsNone account then PyVal.str "" else account
    let s ← pyAdd accountStr login
    let digest := sha512hex (s ++ "Otus")
    pure (pyEqStr token digest)

/-! ### Store (scoring.py lines 10-67).
The retry decorator is modelled over a backend given as a sequence of attempt
outcomes; at the dispatcher level the store appears through the final results
of `cache_get` and of the retried `get`. -/

/-- Outcome of one `self.redis.get` call: a value (or Redis nil),
`redis.ConnectionError`, or another `redis.RedisError`. -/
inductive Att where
  | ok (v : Option String)
  | connErr
  | otherErr

/-- Result of a `Store.get` call through the retry wrapper, with the number of
backend attempts made and the sleeps performed. -/
structure RetryTrace where
  result : Except PyErr (Option String)
  attemptsMade : Nat
  sleeps : List Nat

/-- The `while retries < max_retries` loop of `retry_on_connection_error`
(scoring.py lines 10-27), with `fuel = max_retries - retries`.  On
`ConnectionError`: increment `retries`, re-raise when it reaches
`max_retries`, otherwise `time.sleep(delay)` and retry.  Any other
`RedisError` is re-raised by the wrapped `Store.get` body and is not caught
by the wrapper.  If the loop exits, `None` is returned (line 23). -/
def retryLoop (backend : Nat → Att) (delay idx : Nat) (slept : List Nat) :
    Nat → RetryTrace
  | 0 => ⟨.ok Option.none, idx, slept⟩
  | Nat.succ fuel =>
    match backend idx with
    | .ok v => ⟨.ok v, idx + 1, slept⟩
    | .connErr =>
      if fuel == 0 then ⟨.error PyErr.connectionError, idx + 1, slept⟩
      else retryLoop backend delay (idx + 1) (slept ++ [delay]) fuel
    | .otherErr => ⟨.error PyErr.redisError, idx + 1, slept⟩

/-- `Store.get` with `@retry_on_connection_error(max_retries=3)` (delay 1). -/
def storeGetRetry (backend : Nat → Att) : RetryTrace :=
  retryLoop backend 1 0 [] 3

/-- `Store.cache_get`: `try: return self.redis.get(key) except redis.RedisError:
return None` — both error classes are caught, never re-raised. -/
def cacheGetAttempt : Att → Except PyErr (Option String)
  | .ok v => .ok v
  | .connErr => .ok Option.none
  | .otherErr => .ok Option.none

/-- `Store.cache_set`: `try: self.redis.setex(...) except redis.RedisError:
pass`. -/
def cacheSetAttempt : Att → Except PyErr Unit
  | .ok _ => .ok ()
  | .connErr => .ok ()
  | .otherErr => .ok ()

/-- Result of the retried authoritative `Store.get` as seen by `get_interests`:
an exception, Redis nil, a non-JSON string, or a string whose `json.loads`
gives the carried value. -/
inductive MainRes where
  | raise (e : PyErr)
  | nothing
  | notJson
  | val (v : PyVal)

/-- The store as the dispatcher sees it: `cache_get` results (already through
`float(...)`, which is exact for the stored scores) and retried-`get` results. -/
structure Store where
  cache : String → Option ℚ
  main : String → MainRes

/-- An operation performed on the cache, for observing store usage. -/
inductive StoreOp where
  | cacheGet (key : String)
  | cacheSet (key : String) (value : ℚ) (timeout : Nat)
deriving DecidableEq

/-- The cache key of `get_score` (scoring.py lines 79-85): md5 of the joined
parts `str(first_name) if first_name else ""`, same for last name and phone,
and `birthday.strftime("%Y%m%d") if isinstance(birthday, datetime) else ""`.
`md5hex` is `hashlib.md5(...).hexdigest()` on the utf-8 bytes. -/
def getScoreKey (md5hex : String → String)
    (phone birthday first_name last_name : PyVal) : String :=
  let keyParts : List String :=
    [ if pyTruthy first_name then pyStr first_name else ""
    , if pyTruthy last_name then pyStr last_name else ""
    , if pyTruthy phone then pyStr phone else ""
    , match birthday with
      | PyVal.datetime d => fmtYmd d
      | _ => "" ]
  "uid:" ++ md5hex (String.join keyParts)

/-- `get_score` (scoring.py lines 70-105): cache lookup, otherwise the
truthiness-guarded sum, cached for 3600 seconds before being returned.
Returns the score and the cache operations performed. -/
def getScore (md5hex : String → String) (store : Store)
    (phone email birthday gender first_name last_name : PyVal) : ℚ × List StoreOp :=
  let key := getScoreKey md5hex phone birthday first_name last_name
  match store.cache key with
  | some v => (v, [StoreOp.cacheGet key])
  | Option.none =>
    let score : ℚ := 0
    let score := if pyTruthy phone then score + 3/2 else score
    let score := if pyTruthy email then score + 3/2 else score
    let score := if pyTruthy birthday && !(pyIsNone gender) then score + 3/2 else score
    let score := if pyTruthy first_name && pyTruthy last_name then score + 1/2 else score
    (score, [StoreOp.cacheGet key, StoreOp.cacheSet key score 3600])

/-- `get_interests` (scoring.py lines 108-118): authoritative get of key
`"i:" + str(cid)`; `None` or non-JSON or non-list JSON gives `[]`; a JSON
list is mapped through `str`.  A store exception propagates. -/
def getInterests (store : Store) (cid : PyVal) : Except PyErr (List String) :=
  match store.main ("i:" ++ pyStr cid) with
  | .raise e => .error e
  | .nothing => .ok []
  | .notJson => .ok []
  | .val v =>
    match v with
    | .list l => .ok (l.map pyStr)
    | _ => .ok []

/-- The `interests` dict built by the `clients_interests` branch:
`interests[str(cid)] = get_interests(store, cid)` for each client id. -/
def interestsPayload (store : Store) (cids : List PyVal) :
    Except PyErr (List (String × List String)) :=
  cids.mapM (fun c => do
    let r ← getInterests store c
    pure (pyStr c, r))

/-- A dispatcher response value. -/
inductive Resp where
  | score (v : ℚ)
  | interests (l : List (String × List String))
  | errMsg (s : String)
  | noneResp

/-- `method_handler` result: response, status code, the `ctx` keys it set,
and the cache operations performed. -/
structure HOut where
  resp : Resp
  code : Nat
  ctxHas : Option (List String)
  ctxNclients : Option Nat
  ops : List StoreOp

/-- The 422 message built from the first validation error
(`list(errors.items())[0]`); text abridged. -/
def firstErrorMsg (intro : String) (errors : List (String × String)) : String :=
  match errors with
  | [] => intro
  | (k, v) :: _ => intro ++ k ++ ": " ++ v

/-- `method_handler` (api.py lines 267-333). -/
def methodHandler (sha512hex md5hex : String → String) (nowYmdH : String)
    (today : PyDate) (store : Store) (body : PyVal) : Except PyErr HOut := do
  let mreq ← methodRequestInit body
  if !mreq.errors.isEmpty then
    return ⟨.errMsg (firstErrorMsg "Validation Error in field " mreq.errors),
            422, Option.none, Option.none, []⟩
  let auth ← checkAuth sha512hex nowYmdH mreq
  if !auth then
    return ⟨.errMsg "Forbidden", 403, Option.none, Option.none, []⟩
  let methodName := mrMethod mreq
  let args := mrArguments mreq
  if pyEqStr methodName "online_score" then
    let sreq ← onlineScoreInit today args
    if !sreq.errors.isEmpty then
      return ⟨.errMsg (firstErrorMsg "Validation Error in arguments: " sreq.errors),
              422, Option.none, Option.none, []⟩
    let ctxHas := osNonEmptyFields sreq
    if mrIsAdmin mreq then
      return ⟨.score 42, 200, some ctxHas, Option.none, []⟩
    else
      let r := getScore md5hex store (osAttr sreq.phone) (osAttr sreq.email)
        (osAttr sreq.birthday) (osAttr sreq.gender)
        (osAttr sreq.first_name) (osAttr sreq.last_name)
      return ⟨.score r.1, 200, some ctxHas, Option.none, r.2⟩
  else if pyEqStr methodName "clients_interests" then
    let ireq ← clientsInterestsInit args
    if !ireq.errors.isEmpty then
      return ⟨.errMsg (firstErrorMsg "Validation Error in arguments: " ireq.errors),
              422, Option.none, Option.none, []⟩
    let cids := match ireq.client_ids.getD (PyVal.field true false) with
      | PyVal.list l => l
      | _ => []   -- unreachable when valid: client_ids is required and validated
    let nclients := cids.length
    -- dead assignment `response = {"score": 42}` for admins, overwritten below
    let response : Resp := if mrIsAdmin mreq then Resp.score 42 else Resp.noneResp
    let interests ← interestsPayload store cids
    let response := Resp.interests interests
    return ⟨response, 200, Option.none, some nclients, []⟩
  else
    return ⟨.errMsg "Method not found", 404, Option.none, Option.none, []⟩

/-- The parse stage of `do_POST`: empty body, JSON decode failure, or a
parsed JSON value. -/
inductive ParseOutcome where
  | emptyBody
  | badJson
  | parsed (v : PyVal)

/-- The status code sent by `MainHTTPHandler.do_POST` (api.py lines 343-399):
400 on empty or unparsable body; a parsed `null` leaves `request_body is None`
so the dispatch is skipped and the initial 200 stands; otherwise route on the
path, convert any dispatcher exception to 500. -/
def doPost (sha512hex md5hex : String → String) (nowYmdH : String)
    (today : PyDate) (store : Store) (path : String) (p : ParseOutcome) : Nat :=
  match p with
  | .emptyBody => 400
  | .badJson => 400
  | .parsed v =>
    match v with
    | PyVal.none => 200
    | _ =>
      if path == "method" then
        match methodHandler sha512hex md5hex nowYmdH today store v with
        | .ok out => out.code
        | .error _ => 500
      else 404

/-! ### Concrete instantiations used by closed theorems and witnesses. -/

/-- A stand-in for a hex-digest function in closed statements (the theorems
that depend on digest values quantify over the hash function). -/
def idHash : String → String := fun s => s

/-- A store whose cache always misses and whose authoritative get finds
nothing. -/
def storeEmpty : Store := ⟨fun _ => Option.none, fun _ => MainRes.nothing⟩

/-- Request body with `login` supplied as JSON `null` and everything else
valid. -/
def c1Data : List (String × PyVal) :=
  [("account", PyVal.str "horns"), ("login", PyVal.none),
   ("token", PyVal.str "sometoken"), ("arguments", PyVal.dict []),
   ("method", PyVal.str "online_score")]

/-- Request body with `token` supplied as JSON `null` and everything else
valid. -/
def c1TokenNullData : List (String × PyVal) :=
  [("account", PyVal.str "horns"), ("login", PyVal.str "user"),
   ("token", PyVal.none), ("arguments", PyVal.dict []),
   ("method", PyVal.str "online_score")]

/-- C1: claimed — with login or token supplied as null, `check_auth` returns
false and the dispatcher answers 403 "Forbidden" without raising.  The code
violates this for a null login: the unset instance attribute falls back to the
`CharField` class attribute, which is not `None`, so the `login is None` guard
does not fire; the non-admin digest then concatenates a string with that
`Field` object and raises `TypeError`, which `do_POST` converts to 500.
This theorem evaluates the code at the failing input — schema validation
passes, yet the dispatcher raises instead of returning 403 — and also records
that the null-token half of the claim does behave as claimed (the digest
comparison against the `Field` object is merely false). -/
theorem c1_null_login_raises_typeError (f g : String → String) (nowYmdH : String)
    (today : PyDate) (store : Store) :
    (methodRequestState c1Data).errors = [] ∧
    methodHandler f g nowYmdH today store (PyVal.dict c1Data) = .error PyErr.typeError ∧
    doPost f g nowYmdH today store "method" (.parsed (PyVal.dict c1Data)) = 500 ∧
    (methodRequestState c1TokenNullData).errors = [] ∧
    methodHandler f g nowYmdH today store (PyVal.dict c1TokenNullData)
      = .ok ⟨.errMsg "Forbidden", 403, Option.none, Option.none, []⟩ :=
  ⟨rfl, rfl, rfl, rfl, rfl⟩

/-- C2: claimed — the cache key renders a present birthday as `YYYYMMDD`, and
different present birthdays give different keys.  The code violates this: the
dispatcher passes the birthday as the raw `dd.mm.yyyy` string, which fails the
`isinstance(birthday, datetime)` check, so the birthday component is always
the empty string; two calls that differ only in their (string) birthdays
produce the same key.  The `YYYYMMDD` rendering only happens for `datetime`
values, which the dispatcher never passes. -/
theorem c2_string_birthday_key_collision (md5hex : String → String) :
    getScoreKey md5hex (PyVal.str "79161234567") (PyVal.str "01.01.2000")
        (PyVal.str "A") (PyVal.str "B")
      = getScoreKey md5hex (PyVal.str "79161234567") (PyVal.str "02.02.1999")
        (PyVal.str "A") (PyVal.str "B") ∧
    ("01.01.2000" : String) ≠ "02.02.1999" ∧
    (∀ d : PyDate,
      getScoreKey md5hex (PyVal.str "79161234567") (PyVal.datetime d)
          (PyVal.str "A") (PyVal.str "B")
        = "uid:" ++ md5hex ("A" ++ "B" ++ "79161234567" ++ fmtYmd d)) :=
  ⟨rfl, by decide, fun d => rfl⟩

/-- C3 counterexample: the claim says the score adds 0.5 when first and last
name are both *present*; with both present as empty strings (which pass the
string validator) the code adds nothing, returning 0.0 rather than 0.5. -/
theorem c3_empty_names_score_zero :
    (getScore idHash storeEmpty PyVal.none PyVal.none PyVal.none PyVal.none
      (PyVal.str "") (PyVal.str "")).1 = 0 ∧ ¬((0 : ℚ) = 1/2) :=
  ⟨rfl, by norm_num⟩

/-- The score formula with the presence conditions amended to match the code
truthiness tests: phone, email, first and last name count only when non-empty;
gender counts whenever it is not `None`. -/
def amendedScoreSum (phone email birthday gender first_name last_name : PyVal) : ℚ :=
  (if pyTruthy phone then 3/2 else 0)
  + (if pyTruthy email then 3/2 else 0)
  + (if pyTruthy birthday && !(pyIsNone gender) then 3/2 else 0)
  + (if pyTruthy first_name && pyTruthy last_name then 1/2 else 0)

/-- C3 (amended): on a cache miss, `get_score` returns 0.0 plus 1.5 for a
truthy (present and non-empty) phone, plus 1.5 for a truthy email, plus 1.5
when the birthday is truthy and the gender is not None, plus 0.5 when both
names are truthy — at most 5.0 — and writes that value to the cache with a
3600-second expiry before returning it. -/
theorem c3_truthy_score_formula (md5hex : String → String) (store : Store)
    (phone email birthday gender first_name last_name : PyVal)
    (hmiss : store.cache (getScoreKey md5hex phone birthday first_name last_name)
      = Option.none) :
    getScore md5hex store phone email birthday gender first_name last_name
      = (amendedScoreSum phone email birthday gender first_name last_name,
         [StoreOp.cacheGet (getScoreKey md5hex phone birthday first_name last_name),
          StoreOp.cacheSet (getScoreKey md5hex phone birthday first_name last_name)
            (amendedScoreSum phone email birthday gender first_name last_name) 3600]) ∧
    amendedScoreSum phone email birthday gender first_name last_name ≤ 5 := by
  unfold getScore amendedScoreSum
  simp only [hmiss]
  cases h1 : pyTruthy phone <;> cases h2 : pyTruthy email <;>
    cases h3 : pyTruthy birthday && !(pyIsNone gender) <;>
    cases h4 : pyTruthy first_name && pyTruthy last_name <;>
    simp only [h1, h2, h3, h4, if_true, if_false, Bool.false_eq_true, ite_false, ite_true] <;>
    norm_num [Prod.ext_iff]

/-- Witness for the amended C3 at a concrete input: phone and both names
present, cache miss, score 1.5 + 0.5. -/
theorem c3_truthy_score_formula_witness :
    storeEmpty.cache (getScoreKey idHash (PyVal.str "79161234567") PyVal.none
        (PyVal.str "A") (PyVal.str "B")) = Option.none ∧
    (getScore idHash storeEmpty (PyVal.str "79161234567") PyVal.none PyVal.none
        PyVal.none (PyVal.str "A") (PyVal.str "B")
      = (amendedScoreSum (PyVal.str "79161234567") PyVal.none PyVal.none
           PyVal.none (PyVal.str "A") (PyVal.str "B"),
         [StoreOp.cacheGet (getScoreKey idHash (PyVal.str "79161234567") PyVal.none
            (PyVal.str "A") (PyVal.str "B")),
          StoreOp.cacheSet (getScoreKey idHash (PyVal.str "79161234567") PyVal.none
            (PyVal.str "A") (PyVal.str "B"))
            (amendedScoreSum (PyVal.str "79161234567") PyVal.none PyVal.none
               PyVal.none (PyVal.str "A") (PyVal.str "B")) 3600]) ∧
      amendedScoreSum (PyVal.str "79161234567") PyVal.none PyVal.none PyVal.none
        (PyVal.str "A") (PyVal.str "B") ≤ 5) :=
  ⟨rfl, c3_truthy_score_formula idHash storeEmpty _ _ _ _ _ _ rfl⟩

/-- C9 counterexample: a JSON array body is parsed JSON that is not an object;
the claim says such a request is answered 400 before dispatch, but the service
answers 500 (the `MethodRequest` construction in the dispatcher raises
`AttributeError` on `data.get`, caught by the generic handler). -/
theorem c9_array_body_gives_500 :
    doPost idHash idHash "now" ⟨2025, 10, 12⟩ storeEmpty "method"
      (.parsed (PyVal.list [])) = 500 ∧ (500 : Nat) ≠ 400 :=
  ⟨rfl, by decide⟩

/-- C9 (amended): a POST body that parses as JSON but is not an object is not
rejected at the transport boundary; unless it is `null` it reaches the
dispatcher, whose `MethodRequest` construction raises `AttributeError`, and
the generic exception handler answers 500.  A JSON `null` leaves
`request_body is None`, skipping dispatch, and the initial 200 is sent.
Only an empty or unparsable body is answered 400. -/
theorem c9_non_object_body (f g : String → String) (nowYmdH : String)
    (today : PyDate) (store : Store) (v : PyVal)
    (hnd : ∀ d, v ≠ PyVal.dict d) (hnn : v ≠ PyVal.none) :
    doPost f g nowYmdH today store "method" (.parsed v) = 500 ∧
    doPost f g nowYmdH today store "method" (.parsed PyVal.none) = 200 ∧
    doPost f g nowYmdH today store "method" .badJson = 400 ∧
    doPost f g nowYmdH today store "method" .emptyBody = 400 := by
  refine ⟨?_, rfl, rfl, rfl⟩
  cases v with
  | dict d => exact absurd rfl (hnd d)
  | none => exact absurd rfl hnn
  | str s => rfl
  | int n => rfl
  | bool b => rfl
  | list l => rfl
  | field r nl => rfl
  | datetime d => rfl

/-- Witness for C9: the amended statement at a JSON array body. -/
theorem c9_non_object_body_witness :
    doPost idHash idHash "now" ⟨2025, 10, 12⟩ storeEmpty "method"
        (.parsed (PyVal.list [PyVal.int 1])) = 500 ∧
    doPost idHash idHash "now" ⟨2025, 10, 12⟩ storeEmpty "method"
        (.parsed PyVal.none) = 200 ∧
    doPost idHash idHash "now" ⟨2025, 10, 12⟩ storeEmpty "method" .badJson = 400 ∧
    doPost idHash idHash "now" ⟨2025, 10, 12⟩ storeEmpty "method" .emptyBody = 400 :=
  c9_non_object_body idHash idHash "now" ⟨2025, 10, 12⟩ storeEmpty
    (PyVal.list [PyVal.int 1]) (fun _ h => nomatch h) (fun h => nomatch h)

/-- Valid non-admin request whose arguments are two empty-string names. -/
def c10Data : List (String × PyVal) :=
  [("account", PyVal.str "acc"), ("login", PyVal.str "user"),
   ("token", PyVal.str "accuserOtus"),
   ("arguments", PyVal.dict [("first_name", PyVal.str ""), ("last_name", PyVal.str "")]),
   ("method", PyVal.str "online_score")]

/-- The cache key actually used for the C10 request: absent fields fall back
to `Field` class attributes, and the truthy phone Field object is rendered by
its `__str__` into the key. -/
def c10Key : String := "uid:Field(required=False, nullable=True)"

/-- C10: claimed — the `{"first_name": "", "last_name": ""}` request is valid
(true), the has-list in the context is empty (true), and the returned score is 0.0.
The code violates the score: `getattr(score_req, name, None)` returns the
truthy `Field` class attribute for each absent field, so the phone, email and
birthday/gender branches all fire and the response is `{"score": 4.5}`
(with the `Field.__str__` text baked into the cache key).  The sha512 digest
for token "accuserOtus" is taken as the identity hash to close the
statement. -/
theorem c10_empty_names_actual_score (today : PyDate) :
    methodHandler idHash idHash "now" today storeEmpty (PyVal.dict c10Data)
      = .ok ⟨.score ((0 : ℚ) + 3/2 + 3/2 + 3/2), 200, some [], Option.none,
             [StoreOp.cacheGet c10Key,
              StoreOp.cacheSet c10Key ((0 : ℚ) + 3/2 + 3/2 + 3/2) 3600]⟩ ∧
    (0 : ℚ) + 3/2 + 3/2 + 3/2 = 9/2 ∧ ¬((9 : ℚ)/2 = 0) :=
  ⟨rfl, by norm_num, by norm_num⟩

/-- The date order is total: `a <= b` is false exactly when `b < a`. -/
theorem dateLe_false_iff (a b : PyDate) : dateLe a b = false ↔ dateLt b a = true := by
  simp [dateLe, dateLt]
  omega

/-- C7: for every string parseable as a `dd.mm.yyyy` date, the birthday
validator accepts it iff the parsed date is strictly after
`today - relativedelta(years=70)`; a date exactly 69 years before today is
strictly after that bound (hence accepted), while the date exactly 70 years
before today, or any earlier date, is rejected. -/
theorem c7_birthday_70_year_cutoff (today : PyDate) (hy : 70 ≤ today.year) :
    (∀ s d, parseDate s = some d →
      ((birthDayFieldValidate today (PyVal.str s) = .ok ()) ↔
        dateLt (subYears today 70) d = true)) ∧
    dateLt (subYears today 70) (subYears today 69) = true ∧
    (∀ s, parseDate s = some (subYears today 69) →
      birthDayFieldValidate today (PyVal.str s) = .ok ()) ∧
    (∀ s d, parseDate s = some d → dateLe d (subYears today 70) = true →
      ¬(birthDayFieldValidate today (PyVal.str s) = .ok ())) := by
  have key : ∀ s d, parseDate s = some d →
      ((birthDayFieldValidate today (PyVal.str s) = .ok ()) ↔
        dateLt (subYears today 70) d = true) := by
    intro s d hp
    simp only [birthDayFieldValidate, hp]
    cases hle : dateLe d (subYears today 70) with
    | false =>
      simp [(dateLe_false_iff d (subYears today 70)).1 hle]
    | true =>
      simp only [hle, if_true]
      constructor
      · intro h; exact absurd h (by simp)
      · intro hlt
        have h2 := (dateLe_false_iff d (subYears today 70)).2 hlt
        rw [hle] at h2
        exact Bool.noConfusion h2
  have lt69 : dateLt (subYears today 70) (subYears today 69) = true := by
    simp only [dateLt, subYears, decide_eq_true_eq]
    exact Or.inl (by omega)
  refine ⟨key, lt69, ?_, ?_⟩
  · intro s hp
    exact (key s (subYears today 69) hp).2 lt69
  · intro s d hp hle hok
    have h2 := (dateLe_false_iff d (subYears today 70)).2 ((key s d hp).1 hok)
    rw [hle] at h2
    exact Bool.noConfusion h2

/-- Witness for C7 at today = 2025-10-12: the birthday 12.10.1956 (exactly 69
years before) parses to `subYears today 69` and is accepted. -/
theorem c7_birthday_70_year_cutoff_witness :
    70 ≤ (PyDate.mk 2025 10 12).year ∧
    dateLt (subYears ⟨2025, 10, 12⟩ 70) (subYears ⟨2025, 10, 12⟩ 69) = true ∧
    birthDayFieldValidate ⟨2025, 10, 12⟩ (PyVal.str "12.10.1956") = .ok () :=
  ⟨by decide,
   (c7_birthday_70_year_cutoff ⟨2025, 10, 12⟩ (by decide)).2.1,
   (c7_birthday_70_year_cutoff ⟨2025, 10, 12⟩ (by decide)).2.2.1 "12.10.1956" (by decide)⟩

/-- The retry loop calls the backend at most `fuel` more times. -/
theorem retryLoop_attempts_le (backend : Nat → Att) (delay : Nat) :
    ∀ (fuel idx : Nat) (slept : List Nat),
      (retryLoop backend delay idx slept fuel).attemptsMade ≤ idx + fuel := by
  intro fuel
  induction fuel with
  | zero => intro idx slept; simp [retryLoop]
  | succ n ih =>
    intro idx slept
    rw [retryLoop]
    cases backend idx with
    | ok v => simp
    | connErr =>
      by_cases h : n == 0
      · simp [h]
      · simp only [h, if_false]
        calc (retryLoop backend delay (idx + 1) (slept ++ [delay]) n).attemptsMade
            ≤ (idx + 1) + n := ih (idx + 1) (slept ++ [delay])
          _ ≤ idx + (n + 1) := by omega
    | otherErr => simp

/-- C8: the retried authoritative `Store.get` makes at most 3 attempts; on a
backend that always raises the transient connection error it sleeps the fixed
delay 1 between attempts and re-raises after the 3rd; a different backend
error propagates from the 1st attempt without retry; a successful attempt
returns immediately.  `cache_get` and `cache_set` return normally (no value /
unit) for every backend error, so no backend error propagates from the cache
paths. -/
theorem c8_retry_and_cache_paths (b1 b2 b3 : Nat → Att) (v : Option String)
    (h1 : ∀ i, b1 i = Att.connErr) (h2 : b2 0 = Att.otherErr)
    (h3 : b3 0 = Att.ok v) :
    (∀ b, (storeGetRetry b).attemptsMade ≤ 3) ∧
    storeGetRetry b1 = ⟨.error PyErr.connectionError, 3, [1, 1]⟩ ∧
    storeGetRetry b2 = ⟨.error PyErr.redisError, 1, []⟩ ∧
    storeGetRetry b3 = ⟨.ok v, 1, []⟩ ∧
    (∀ a, ∃ r, cacheGetAttempt a = .ok r) ∧
    (∀ a, cacheSetAttempt a = .ok ()) := by
  refine ⟨?_, ?_, ?_, ?_, ?_, ?_⟩
  · intro b
    have h := retryLoop_attempts_le b 1 3 0 []
    simpa [storeGetRetry] using h
  · simp [storeGetRetry, retryLoop, h1]
  · simp [storeGetRetry, retryLoop, h2]
  · simp [storeGetRetry, retryLoop, h3]
  · intro a; cases a with
    | ok w => exact ⟨w, rfl⟩
    | connErr => exact ⟨Option.none, rfl⟩
    | otherErr => exact ⟨Option.none, rfl⟩
  · intro a; cases a <;> rfl

/-- Witness for C8: concrete backends (always connection error, immediate
other error, immediate hit). -/
theorem c8_retry_and_cache_paths_witness :
    storeGetRetry (fun _ => Att.connErr) = ⟨.error PyErr.connectionError, 3, [1, 1]⟩ ∧
    storeGetRetry (fun _ => Att.otherErr) = ⟨.error PyErr.redisError, 1, []⟩ ∧
    storeGetRetry (fun _ => Att.ok (some "42")) = ⟨.ok (some "42"), 1, []⟩ :=
  ⟨(c8_retry_and_cache_paths (fun _ => Att.connErr) (fun _ => Att.otherErr)
      (fun _ => Att.ok (some "42")) (some "42") (fun _ => rfl) rfl rfl).2.1,
   (c8_retry_and_cache_paths (fun _ => Att.connErr) (fun _ => Att.otherErr)
      (fun _ => Att.ok (some "42")) (some "42") (fun _ => rfl) rfl rfl).2.2.1,
   (c8_retry_and_cache_paths (fun _ => Att.connErr) (fun _ => Att.otherErr)
      (fun _ => Att.ok (some "42")) (some "42") (fun _ => rfl) rfl rfl).2.2.2.1⟩

/-- One field of the raw data validates individually: absent, null, or its
validator succeeds. -/
def fieldOkOne (data : List (String × PyVal)) (f : FieldSpec) : Bool :=
  match data.lookup f.name with
  | some v =>
    if pyIsNone v then true
    else
      match f.validate v with
      | .ok _ => true
      | .error _ => false
  | Option.none => true

/-- The key is present in the raw input with a non-null value. -/
def presentNonNull (data : List (String × PyVal)) (name : String) : Bool :=
  match data.lookup name with
  | some v => !(pyIsNone v)
  | Option.none => false

/-- The cross-field rule of the claim: at least one of the pairs
(phone, email), (first_name, last_name), (birthday, gender) is fully present
with non-null values in the raw input. -/
def scorePairRule (data : List (String × PyVal)) : Bool :=
  presentNonNull data "phone" && presentNonNull data "email"
  || presentNonNull data "first_name" && presentNonNull data "last_name"
  || presentNonNull data "gender" && presentNonNull data "birthday"

/-- For an optional nullable field that validates individually, the init loop
records no error, and sets the attribute exactly when the key is present with
a non-null value. -/
theorem fieldOk_reduces (data : List (String × PyVal)) (f : FieldSpec)
    (hreq : f.required = false) (hnul : f.nullable = true)
    (h : fieldOkOne data f = true) :
    fieldError data f = Option.none ∧
    (fieldAttrVal data f).isSome = presentNonNull data f.name := by
  unfold fieldOkOne at h
  cases hl : data.lookup f.name with
  | none => simp [fieldError, fieldAttrVal, presentNonNull, hl, hreq]
  | some v =>
    rw [hl] at h
    simp only at h
    cases hn : pyIsNone v with
    | true => simp [fieldError, fieldAttrVal, presentNonNull, hl, hn, hnul]
    | false =>
      rw [hn] at h
      simp only [if_false, Bool.false_eq_true] at h
      cases hv : f.validate v with
      | ok u => simp [fieldError, fieldAttrVal, presentNonNull, hl, hn, hv]
      | error e => rw [hv] at h; simp at h

/-- C6: when every individual field of the raw argument mapping validates, the
constructed `OnlineScoreRequest` is valid iff at least one of the pairs
(phone, email), (first_name, last_name), (birthday, gender) is fully present
with non-null values; when no pair is complete the error dict gains the key
"arguments".  In particular the phone+email example is valid and the
lone-first-name example is not. -/
theorem c6_cross_field_pairs (today : PyDate) (data : List (String × PyVal))
    (h : ([firstNameFS, lastNameFS, emailFS, phoneFS, birthdayFS today, genderFS]).all
      (fieldOkOne data) = true) :
    ((onlineScoreState today data).errors.isEmpty = scorePairRule data) ∧
    (scorePairRule data = false →
      ((onlineScoreState today data).errors.lookup "arguments").isSome = true) ∧
    (onlineScoreState today
      [("phone", PyVal.str "79161234567"), ("email", PyVal.str "a@b")]).errors.isEmpty = true ∧
    (onlineScoreState today [("first_name", PyVal.str "A")]).errors.isEmpty = false := by
  refine ?_
  have hall : fieldOkOne data firstNameFS = true ∧ fieldOkOne data lastNameFS = true ∧
      fieldOkOne data emailFS = true ∧ fieldOkOne data phoneFS = true ∧
      fieldOkOne data (birthdayFS today) = true ∧ fieldOkOne data genderFS = true := by
    simpa [List.all] using h
  obtain ⟨o1, o2, o3, o4, o5, o6⟩ := hall
  have e1 := fieldOk_reduces data firstNameFS rfl rfl o1
  have e2 := fieldOk_reduces data lastNameFS rfl rfl o2
  have e3 := fieldOk_reduces data emailFS rfl rfl o3
  have e4 := fieldOk_reduces data phoneFS rfl rfl o4
  have e5 := fieldOk_reduces data (birthdayFS today) rfl rfl o5
  have e6 := fieldOk_reduces data genderFS rfl rfl o6
  refine ⟨?_, ?_, rfl, rfl⟩ <;>
  · unfold onlineScoreState
    simp only [List.filterMap_cons, List.filterMap_nil, e1.1, e2.1, e3.1, e4.1, e5.1, e6.1]
    simp only [List.isEmpty_nil, if_true]
    unfold onlineScorePost
    rw [show firstNameFS.name = "first_name" from rfl] at e1
    rw [show lastNameFS.name = "last_name" from rfl] at e2
    rw [show emailFS.name = "email" from rfl] at e3
    rw [show phoneFS.name = "phone" from rfl] at e4
    rw [show (birthdayFS today).name = "birthday" from rfl] at e5
    rw [show genderFS.name = "gender" from rfl] at e6
    simp only [e4.2, e3.2, e1.2, e2.2, e6.2, e5.2]
    cases hr : scorePairRule data
    · unfold scorePairRule at hr
      rw [hr]
      simp
    · unfold scorePairRule at hr
      rw [hr]
      simp

/-- Witness for C6 at the phone+email example: all fields validate, and
validity equals the pair rule (which holds). -/
theorem c6_cross_field_pairs_witness :
    ([firstNameFS, lastNameFS, emailFS, phoneFS, birthdayFS ⟨2025, 10, 12⟩, genderFS]).all
      (fieldOkOne [("phone", PyVal.str "79161234567"), ("email", PyVal.str "a@b")]) = true ∧
    (onlineScoreState ⟨2025, 10, 12⟩
      [("phone", PyVal.str "79161234567"), ("email", PyVal.str "a@b")]).errors.isEmpty
      = scorePairRule [("phone", PyVal.str "79161234567"), ("email", PyVal.str "a@b")] :=
  ⟨rfl, (c6_cross_field_pairs ⟨2025, 10, 12⟩
    [("phone", PyVal.str "79161234567"), ("email", PyVal.str "a@b")] rfl).1⟩

/-- Bind on a successful `Except` computation just continues. -/
theorem exceptBind_ok {α β ε : Type} (a : α) (k : α → Except ε β) :
    (Except.ok a >>= k : Except ε β) = k a := rfl

/-- A request body for the `online_score` method with admin login and
string credentials. -/
def c4Data (account token : String) (args : List (String × PyVal)) : List (String × PyVal) :=
  [("account", PyVal.str account), ("login", PyVal.str "admin"), ("token", PyVal.str token),
   ("arguments", PyVal.dict args), ("method", PyVal.str "online_score")]

/-- C4: a valid `online_score` request whose login is "admin" and whose token
matches the admin digest (sha512 of now-hour plus ADMIN_SALT) is answered
`({"score": 42}, 200)` with no cache read and no cache write. -/
theorem c4_admin_sentinel_no_store (f g : String → String) (nowYmdH : String)
    (today : PyDate) (store : Store) (account token : String)
    (args : List (String × PyVal))
    (htok : token = f (nowYmdH ++ "42"))
    (hargs : (onlineScoreState today args).errors = []) :
    methodHandler f g nowYmdH today store (PyVal.dict (c4Data account token args))
      = .ok ⟨.score 42, 200, some (osNonEmptyFields (onlineScoreState today args)),
             Option.none, []⟩ := by
  subst htok
  have hmr : methodRequestInit (PyVal.dict (c4Data account (f (nowYmdH ++ "42")) args))
      = .ok ⟨[], some (.str account), some (.str "admin"), some (.str (f (nowYmdH ++ "42"))),
             some (.dict args), some (.str "online_score")⟩ := rfl
  simp only [methodHandler, hmr, exceptBind_ok]
  simp [checkAuth, mrLogin, mrToken, mrAccount, mrIsAdmin, mrMethod, mrArguments,
        pyEqStr, pyIsNone, onlineScoreInit, exceptBind_ok, hargs]
  rfl

/-- Witness for C4 at concrete inputs (identity digest, phone+email
arguments): score 42, code 200, no cache operations. -/
theorem c4_admin_sentinel_no_store_witness :
    ("now42" : String) = idHash ("now" ++ "42") ∧
    (onlineScoreState ⟨2025, 10, 12⟩
      [("phone", PyVal.str "79161234567"), ("email", PyVal.str "a@b")]).errors = [] ∧
    methodHandler idHash idHash "now" ⟨2025, 10, 12⟩ storeEmpty
        (PyVal.dict (c4Data "acc" "now42"
          [("phone", PyVal.str "79161234567"), ("email", PyVal.str "a@b")]))
      = .ok ⟨.score 42, 200,
             some (osNonEmptyFields (onlineScoreState ⟨2025, 10, 12⟩
               [("phone", PyVal.str "79161234567"), ("email", PyVal.str "a@b")])),
             Option.none, []⟩ :=
  ⟨rfl, rfl,
   c4_admin_sentinel_no_store idHash idHash "now" ⟨2025, 10, 12⟩ storeEmpty "acc" "now42"
     [("phone", PyVal.str "79161234567"), ("email", PyVal.str "a@b")] rfl rfl⟩

/-- Map over a successful `Except` computation. -/
theorem exceptMap_ok {α β ε : Type} (h : α → β) (a : α) :
    (h <$> (Except.ok a : Except ε α)) = Except.ok (h a) := rfl

/-- A request body for the `clients_interests` method with string
credentials. -/
def ciData (account login token : String) (args : List (String × PyVal)) : List (String × PyVal) :=
  [("account", PyVal.str account), ("login", PyVal.str login), ("token", PyVal.str token),
   ("arguments", PyVal.dict args), ("method", PyVal.str "clients_interests")]

/-- C5: a valid, authenticated `clients_interests` request is answered with
exactly the mapping from each stringified client id to its interests list and
status 200, with no dependence on the credentials of the caller: two requests with
the same arguments whose authentications both succeed (for example one admin,
one not) get the same response — the admin `{"score": 42}` assignment is
overwritten by the interests mapping. -/
theorem c5_interests_uniform (f g : String → String) (nowYmdH : String)
    (today : PyDate) (store : Store) (a1 l1 t1 a2 l2 t2 : String)
    (args : List (String × PyVal)) (cl : List PyVal)
    (L : List (String × List String))
    (h1 : checkAuth f nowYmdH (methodRequestState (ciData a1 l1 t1 args)) = .ok true)
    (h2 : checkAuth f nowYmdH (methodRequestState (ciData a2 l2 t2 args)) = .ok true)
    (herr : (clientsInterestsState args).errors = [])
    (hcl : (clientsInterestsState args).client_ids = some (PyVal.list cl))
    (hmap : interestsPayload store cl = .ok L) :
    methodHandler f g nowYmdH today store (PyVal.dict (ciData a1 l1 t1 args))
      = .ok ⟨.interests L, 200, Option.none, some cl.length, []⟩ ∧
    methodHandler f g nowYmdH today store (PyVal.dict (ciData a2 l2 t2 args))
      = .ok ⟨.interests L, 200, Option.none, some cl.length, []⟩ := by
  constructor
  · have hmr : methodRequestInit (PyVal.dict (ciData a1 l1 t1 args))
        = .ok ⟨[], some (.str a1), some (.str l1), some (.str t1),
               some (.dict args), some (.str "clients_interests")⟩ := rfl
    have h1b : checkAuth f nowYmdH
        ⟨[], some (.str a1), some (.str l1), some (.str t1),
         some (.dict args), some (.str "clients_interests")⟩ = .ok true := h1
    simp only [methodHandler, hmr, exceptBind_ok, h1b]
    simp [mrMethod, mrArguments, pyEqStr, clientsInterestsInit, herr, hcl, hmap,
          exceptBind_ok, exceptMap_ok]
  · have hmr : methodRequestInit (PyVal.dict (ciData a2 l2 t2 args))
        = .ok ⟨[], some (.str a2), some (.str l2), some (.str t2),
               some (.dict args), some (.str "clients_interests")⟩ := rfl
    have h2b : checkAuth f nowYmdH
        ⟨[], some (.str a2), some (.str l2), some (.str t2),
         some (.dict args), some (.str "clients_interests")⟩ = .ok true := h2
    simp only [methodHandler, hmr, exceptBind_ok, h2b]
    simp [mrMethod, mrArguments, pyEqStr, clientsInterestsInit, herr, hcl, hmap,
          exceptBind_ok, exceptMap_ok]

/-- A store whose authoritative get always finds the JSON list
`["books", 5]`. -/
def storeBooks : Store :=
  ⟨fun _ => Option.none, fun _ => MainRes.val (PyVal.list [PyVal.str "books", PyVal.int 5])⟩

/-- Witness for C5: a non-admin caller and an admin caller with the same
client ids get the identical stringified-id-to-interests mapping. -/
theorem c5_interests_uniform_witness :
    methodHandler idHash idHash "x" ⟨2025, 10, 12⟩ storeBooks
        (PyVal.dict (ciData "a" "u" "auOtus" [("client_ids", PyVal.list [PyVal.int 1, PyVal.int 2])]))
      = .ok ⟨.interests [("1", ["books", "5"]), ("2", ["books", "5"])], 200,
             Option.none, some 2, []⟩ ∧
    methodHandler idHash idHash "x" ⟨2025, 10, 12⟩ storeBooks
        (PyVal.dict (ciData "b" "admin" "x42" [("client_ids", PyVal.list [PyVal.int 1, PyVal.int 2])]))
      = .ok ⟨.interests [("1", ["books", "5"]), ("2", ["books", "5"])], 200,
             Option.none, some 2, []⟩ :=
  c5_interests_uniform idHash idHash "x" ⟨2025, 10, 12⟩ storeBooks
    "a" "u" "auOtus" "b" "admin" "x42"
    [("client_ids", PyVal.list [PyVal.int 1, PyVal.int 2])]
    [PyVal.int 1, PyVal.int 2]
    [("1", ["books", "5"]), ("2", ["books", "5"])]
    rfl rfl rfl rfl rfl

end ScoringApi
